import Mathlib

/-!
Verification of the Whop gamification backend (server.js).

Shallow embedding: the per-user rows of the relational schema (users,
user_achievements, user_tasks, user_rewards, activity_log) are bundled into a
`UserState`; each request handler and helper function of the source is
translated into a pure state-transition function.  JavaScript number
arithmetic is modelled exactly (Int / Nat); timestamps are Int milliseconds
and calendar days are Int day numbers.
-/

namespace Whop

/-- One row of the activity_log table (per user): activity_type, description,
xp_earned.  The log is append-only; `logActivity` inserts at the end. -/
structure ActivityEntry where
  activity_type : String
  description : String
  xp_earned : Int
  deriving DecidableEq, Repr

/-- One row of the user_tasks table (per user): which task, which calendar
day (the DATE(created_at) of the row), the completed flag and progress. -/
structure TaskCompletion where
  task_id : Nat
  day : Int
  completed : Bool
  progress : Int
  deriving DecidableEq, Repr

/-- The per-user slice of the store: the users row (level, xp, total_points,
streak, last_activity) together with the rows of user_achievements
(achievement ids), activity_log, user_rewards (reward ids, one entry per
redemption) and user_tasks keyed by this user. -/
structure UserState where
  level : Nat
  xp : Int
  total_points : Int
  streak : Nat
  last_activity : Int
  achievements : List Nat
  activity : List ActivityEntry
  redemptions : List Nat
  completions : List TaskCompletion
  deriving DecidableEq, Repr

/-- A row of the daily_tasks catalog. -/
structure DailyTask where
  id : Nat
  required_count : Int
  xp_reward : Int
  active : Bool
  deriving DecidableEq, Repr

/-- A row of the rewards catalog. -/
structure Reward where
  id : Nat
  cost : Int
  active : Bool
  deriving DecidableEq, Repr

/-- HTTP response of a handler: a success payload or an error status with
message. -/
inductive ApiResponse (α : Type) where
  | ok (value : α)
  | err (status : Nat) (message : String)
  deriving DecidableEq, Repr

/-- calculateXPForLevel(level) = Math.floor(100 * Math.pow(1.5, level - 1)).
For level ≥ 1 the JavaScript float computation is exact arithmetic on
100 * (3/2)^(level-1), so the floor is the natural-number quotient
100 * 3^(level-1) / 2^(level-1). -/
def calculateXPForLevel (level : Nat) : Nat :=
  100 * 3 ^ (level - 1) / 2 ^ (level - 1)

/-- logActivity(userId, activityType, description, xpEarned): INSERT INTO
activity_log. -/
def logActivity (u : UserState) (activityType description : String)
    (xpEarned : Int) : UserState :=
  { u with activity := u.activity ++ [⟨activityType, description, xpEarned⟩] }

/-- Record returned by awardXP. -/
structure AwardResult where
  newLevel : Nat
  newXP : Int
  leveledUp : Bool
  deriving DecidableEq, Repr

/-- awardXP(userId, xp): reads level, xp, total_points; newXP = xp + amount,
newPoints = total_points + amount, xpNeeded = calculateXPForLevel(level+1);
if newXP >= xpNeeded it advances exactly one level, keeps the remainder and
logs a level_up activity entry worth 1000; finally writes xp, level and
total_points back and returns the result record. -/
def awardXP (u : UserState) (amount : Int) : UserState × AwardResult :=
  let newXP := u.xp + amount
  let newPoints := u.total_points + amount
  let xpNeeded : Int := calculateXPForLevel (u.level + 1)
  if newXP ≥ xpNeeded then
    let newLevel := u.level + 1
    let remainingXP := newXP - xpNeeded
    let u1 := logActivity u "level_up" ("Reached Level " ++ toString newLevel) 1000
    ({ u1 with xp := remainingXP, level := newLevel, total_points := newPoints },
     ⟨newLevel, remainingXP, decide (newLevel > u.level)⟩)
  else
    ({ u with xp := newXP, total_points := newPoints },
     ⟨u.level, newXP, decide (u.level > u.level)⟩)

/-- awardAchievement(userId, achievementId, xp): no-op when a
user_achievements row already exists; otherwise inserts the row, credits the
bonus through awardXP and logs an achievement activity entry. -/
def awardAchievement (u : UserState) (achievementId : Nat) (xp : Int) :
    UserState :=
  if achievementId ∈ u.achievements then u
  else
    let u1 := { u with achievements := u.achievements ++ [achievementId] }
    let u2 := (awardXP u1 xp).1
    logActivity u2 "achievement" "Unlocked achievement" xp

/-- updateStreak(userId): daysDiff = Math.floor((now - last_activity) / day);
1 day → streak + 1, more than 1 day → reset to 1, otherwise unchanged; the
write always stamps last_activity = now; then streak == 7 unlocks
achievement 3 (Week Warrior, +500) and streak == 30 unlocks achievement 6
(Month Master, +1000). -/
def updateStreak (u : UserState) (now : Int) : UserState :=
  let daysDiff := (now - u.last_activity).fdiv 86400000
  let newStreak := if daysDiff = 1 then u.streak + 1
                   else if daysDiff > 1 then 1
                   else u.streak
  let u1 := { u with last_activity := now, streak := newStreak }
  if newStreak = 7 then awardAchievement u1 3 500
  else if newStreak = 30 then awardAchievement u1 6 1000
  else u1

/-- The rows of user_tasks for this user, task and calendar day (the SELECT
of the task-completion handler). -/
def sameDayRows (u : UserState) (taskId : Nat) (today : Int) :
    List TaskCompletion :=
  u.completions.filter (fun c => c.task_id == taskId && c.day == today)

/-- existingTask.rows.length > 0 && existingTask.rows[0].completed. -/
def firstCompleted : List TaskCompletion → Bool
  | [] => false
  | c :: _ => c.completed

/-- Modelled from the spec: the user_tasks storage schema and its
(user_id, task_id, day) uniqueness constraint are not in the source tree, so
the INSERT ... ON CONFLICT (user_id, task_id, DATE(created_at)) DO UPDATE SET
completed = true of the task-completion handler is modelled as
mark-completed-if-present, insert-otherwise on the (task_id, day) key. -/
def upsertCompletion (u : UserState) (taskId : Nat) (today : Int)
    (prog : Int) : UserState :=
  if u.completions.any (fun c => c.task_id == taskId && c.day == today) then
    { u with completions := u.completions.map (fun c =>
        if c.task_id == taskId && c.day == today then
          { c with completed := true }
        else c) }
  else
    { u with completions := u.completions ++
        [⟨taskId, today, true, prog⟩] }

/-- POST /api/tasks/complete: 404 when the task id is not in daily_tasks;
400 when the first user_tasks row for (user, task, today) is completed;
otherwise upserts the completion row, awards the task xp_reward, updates the
streak and returns the XP earned. -/
def completeTask (tasks : List DailyTask) (u : UserState) (taskId : Nat)
    (today now : Int) : UserState × ApiResponse Int :=
  match tasks.find? (fun t => t.id == taskId) with
  | none => (u, .err 404 "Task not found")
  | some task =>
    if firstCompleted (sameDayRows u taskId today) then
      (u, .err 400 "Task already completed today")
    else
      let u1 := upsertCompletion u taskId today task.required_count
      let u2 := (awardXP u1 task.xp_reward).1
      let u3 := updateStreak u2 now
      (u3, .ok task.xp_reward)

/-- POST /api/rewards/redeem: 404 when no active reward has the id; 400 when
total_points < cost; otherwise deducts the cost from total_points and inserts
a user_rewards row. -/
def redeemReward (rewards : List Reward) (u : UserState) (rewardId : Nat) :
    UserState × ApiResponse String :=
  match rewards.find? (fun r => r.id == rewardId && r.active) with
  | none => (u, .err 404 "Reward not found")
  | some reward =>
    if u.total_points < reward.cost then
      (u, .err 400 "Insufficient points")
    else
      ({ u with total_points := u.total_points - reward.cost,
                redemptions := u.redemptions ++ [rewardId] },
       .ok "Reward redeemed successfully")

/-- checkMessageAchievements(userId): counts activity_log rows of
activity_type message; at 50 or more, unlocks achievement 2 (Chatterbox,
+250). -/
def checkMessageAchievements (u : UserState) : UserState :=
  let count := (u.activity.filter
    (fun a => a.activity_type == "message")).length
  if count ≥ 50 then awardAchievement u 2 250 else u

/-- checkPostAchievements(userId): counts activity_log rows of activity_type
post; at 25 or more, unlocks achievement 5 (Content King, +750). -/
def checkPostAchievements (u : UserState) : UserState :=
  let count := (u.activity.filter
    (fun a => a.activity_type == "post")).length
  if count ≥ 25 then awardAchievement u 5 750 else u

/-- The users table as seen by the webhook handlers: rows keyed by
whop_user_id. -/
structure DB where
  users : List (String × UserState)
  deriving DecidableEq, Repr

/-- getUserByWhopId: SELECT * FROM users WHERE whop_user_id = $1, first row
or none. -/
def getUserByWhopId (db : DB) (whopUserId : String) : Option UserState :=
  (db.users.find? (fun p => p.1 == whopUserId)).map Prod.snd

/-- Write the mutated per-user state back for the rows with the given
whop_user_id. -/
def DB.updateUser (db : DB) (whopUserId : String)
    (f : UserState → UserState) : DB :=
  ⟨db.users.map (fun p => if p.1 == whopUserId then (p.1, f p.2) else p)⟩

/-- handleMessageCreated(data): resolve the user by whop id, return when
absent, else award 10 XP and re-run the message-achievement check. -/
def handleMessageCreated (db : DB) (userId : String) : DB :=
  match getUserByWhopId db userId with
  | none => db
  | some _ => db.updateUser userId
      (fun u => checkMessageAchievements (awardXP u 10).1)

/-- handlePostCreated(data): resolve the user, return when absent, else
award 50 XP and re-run the post-achievement check. -/
def handlePostCreated (db : DB) (userId : String) : DB :=
  match getUserByWhopId db userId with
  | none => db
  | some _ => db.updateUser userId
      (fun u => checkPostAchievements (awardXP u 50).1)

/-- handleReactionAdded(data): resolve the user, return when absent, else
award 5 XP. -/
def handleReactionAdded (db : DB) (userId : String) : DB :=
  match getUserByWhopId db userId with
  | none => db
  | some _ => db.updateUser userId (fun u => (awardXP u 5).1)

/-- POST /webhooks/whop: switch on event.type; member.joined is an explicit
no-op and unknown types are logged and acknowledged; the endpoint answers
success (the Bool) in every branch. -/
def handleWebhook (db : DB) (eventType userId : String) : DB × Bool :=
  match eventType with
  | "message.created" => (handleMessageCreated db userId, true)
  | "post.created" => (handlePostCreated db userId, true)
  | "reaction.added" => (handleReactionAdded db userId, true)
  | "member.joined" => (db, true)
  | _ => (db, true)

/-- Fold a sequence of webhook deliveries (type, data.user_id) through the
endpoint. -/
def processEvents (db : DB) (events : List (String × String)) : DB :=
  events.foldl (fun d e => (handleWebhook d e.1 e.2).1) db

/-- The XP curve as the spec words it: floor(100 * 1.5^(level-1)), with an
exact rational floor.  Compared against calculateXPForLevel. -/
def xpForLevelSpec (level : Nat) : Nat :=
  Nat.floor ((100 : ℚ) * (3 / 2) ^ (level - 1))

/-- A freshly created user row: level 1, xp 0, total_points 0, streak 0 (the
INSERT of the OAuth callback), with no dependent rows. -/
def user0 : UserState :=
  ⟨1, 0, 0, 0, 0, [], [], [], []⟩

/-- A one-user database for the webhook scenarios. -/
def oneUserDB : DB := ⟨[("w1", user0)]⟩

/-- A one-reward catalog: active reward 1 costing 50 points. -/
def rewards1 : List Reward := [⟨1, 50, true⟩]

/-- A one-task catalog: task 1 worth 80 XP. -/
def tasks1 : List DailyTask := [⟨1, 1, 80, true⟩]

/-- A user holding 300 points. -/
def userRich : UserState := { user0 with total_points := 300 }

/-- A user holding 300 points who already redeemed reward 1 once. -/
def userRedeemed : UserState :=
  { user0 with total_points := 300, redemptions := [1] }

/- ================= helper lemmas ================= -/

lemma awardXP_fst (u : UserState) (a : Int) :
    (awardXP u a).1 =
      if (calculateXPForLevel (u.level + 1) : Int) ≤ u.xp + a then
        { u with xp := u.xp + a - (calculateXPForLevel (u.level + 1) : Int),
                 level := u.level + 1,
                 total_points := u.total_points + a,
                 activity := u.activity ++
                   [⟨"level_up", "Reached Level " ++ toString (u.level + 1),
                     1000⟩] }
      else { u with xp := u.xp + a, total_points := u.total_points + a } := by
  unfold awardXP logActivity
  simp only [ge_iff_le]
  split <;> rfl

lemma awardXP_snd (u : UserState) (a : Int) :
    (awardXP u a).2 =
      if (calculateXPForLevel (u.level + 1) : Int) ≤ u.xp + a then
        ⟨u.level + 1, u.xp + a - (calculateXPForLevel (u.level + 1) : Int),
         true⟩
      else ⟨u.level, u.xp + a, false⟩ := by
  unfold awardXP
  simp only [ge_iff_le, gt_iff_lt]
  split <;> simp

lemma awardXP_total_points (u : UserState) (a : Int) :
    ((awardXP u a).1).total_points = u.total_points + a := by
  rw [awardXP_fst]; split <;> rfl

lemma awardXP_achievements (u : UserState) (a : Int) :
    ((awardXP u a).1).achievements = u.achievements := by
  rw [awardXP_fst]; split <;> rfl

lemma awardXP_completions (u : UserState) (a : Int) :
    ((awardXP u a).1).completions = u.completions := by
  rw [awardXP_fst]; split <;> rfl

lemma awardXP_streak (u : UserState) (a : Int) :
    ((awardXP u a).1).streak = u.streak := by
  rw [awardXP_fst]; split <;> rfl

lemma awardXP_last_activity (u : UserState) (a : Int) :
    ((awardXP u a).1).last_activity = u.last_activity := by
  rw [awardXP_fst]; split <;> rfl

lemma awardXP_redemptions (u : UserState) (a : Int) :
    ((awardXP u a).1).redemptions = u.redemptions := by
  rw [awardXP_fst]; split <;> rfl

lemma awardAchievement_mem_noop (u : UserState) (aid : Nat) (xp : Int)
    (h : aid ∈ u.achievements) : awardAchievement u aid xp = u := by
  unfold awardAchievement; rw [if_pos h]

lemma awardAchievement_achievements (u : UserState) (aid : Nat) (xp : Int) :
    (awardAchievement u aid xp).achievements =
      if aid ∈ u.achievements then u.achievements
      else u.achievements ++ [aid] := by
  unfold awardAchievement
  split
  · rfl
  · simp [logActivity, awardXP_achievements]

lemma awardAchievement_total_points (u : UserState) (aid : Nat) (xp : Int) :
    (awardAchievement u aid xp).total_points =
      u.total_points + (if aid ∈ u.achievements then 0 else xp) := by
  unfold awardAchievement
  split
  · simp
  · simp [logActivity, awardXP_total_points]

lemma awardAchievement_streak (u : UserState) (aid : Nat) (xp : Int) :
    (awardAchievement u aid xp).streak = u.streak := by
  unfold awardAchievement
  split
  · rfl
  · simp [logActivity, awardXP_streak]

lemma awardAchievement_last_activity (u : UserState) (aid : Nat) (xp : Int) :
    (awardAchievement u aid xp).last_activity = u.last_activity := by
  unfold awardAchievement
  split
  · rfl
  · simp [logActivity, awardXP_last_activity]

lemma awardAchievement_completions (u : UserState) (aid : Nat) (xp : Int) :
    (awardAchievement u aid xp).completions = u.completions := by
  unfold awardAchievement
  split
  · rfl
  · simp [logActivity, awardXP_completions]

lemma updateStreak_completions (u : UserState) (now : Int) :
    (updateStreak u now).completions = u.completions := by
  unfold updateStreak
  dsimp only
  repeat' split
  all_goals simp [awardAchievement_completions]

lemma updateStreak_streak (u : UserState) (now : Int) :
    (updateStreak u now).streak =
      (if (now - u.last_activity).fdiv 86400000 = 1 then u.streak + 1
       else if (now - u.last_activity).fdiv 86400000 > 1 then 1
       else u.streak) := by
  unfold updateStreak
  dsimp only
  repeat' split
  all_goals simp_all [awardAchievement_streak]

lemma updateStreak_last_activity (u : UserState) (now : Int) :
    (updateStreak u now).last_activity = now := by
  unfold updateStreak
  dsimp only
  repeat' split
  all_goals simp [awardAchievement_last_activity]

lemma calculateXPForLevel_eq_spec (L : Nat) :
    calculateXPForLevel L = xpForLevelSpec L := by
  unfold calculateXPForLevel xpForLevelSpec
  rw [div_pow, ← mul_div_assoc]
  rw [show ((100 : ℚ) * 3 ^ (L - 1)) = ((100 * 3 ^ (L - 1) : ℕ) : ℚ) by
        push_cast; ring,
      show ((2 : ℚ) ^ (L - 1)) = ((2 ^ (L - 1) : ℕ) : ℚ) by push_cast; ring]
  rw [Nat.floor_div_nat, Nat.floor_natCast]

lemma calcXP_step_lt (k : Nat) :
    100 * 3 ^ k / 2 ^ k < 100 * 3 ^ (k + 1) / 2 ^ (k + 1) := by
  have h2 : 0 < 2 ^ k := Nat.pos_pow_of_pos k (by norm_num)
  set q := 100 * 3 ^ k / 2 ^ k with hqdef
  have hq : 100 ≤ q := by
    rw [hqdef, Nat.le_div_iff_mul_le h2]
    calc 100 * 2 ^ k ≤ 100 * 3 ^ k :=
          Nat.mul_le_mul_left 100 (Nat.pow_le_pow_left (by norm_num) k)
    _ = 100 * 3 ^ k := rfl
  have hmul : q * 2 ^ k ≤ 100 * 3 ^ k := Nat.div_mul_le_self _ _
  have h3 : 2 ^ k * (3 * q) ≤ 100 * 3 ^ (k + 1) := by
    rw [pow_succ]
    calc 2 ^ k * (3 * q) = 3 * (q * 2 ^ k) := by ring
    _ ≤ 3 * (100 * 3 ^ k) := Nat.mul_le_mul_left 3 hmul
    _ = 100 * (3 ^ k * 3) := by ring
  have h4 : 2 ^ k * (3 * q) / 2 ^ (k + 1) ≤ 100 * 3 ^ (k + 1) / 2 ^ (k + 1) :=
    Nat.div_le_div_right h3
  have h5 : 2 ^ k * (3 * q) / 2 ^ (k + 1) = 3 * q / 2 := by
    rw [pow_succ]
    exact Nat.mul_div_mul_left (3 * q) 2 h2
  have h6 : q + 1 ≤ 3 * q / 2 := by
    rw [Nat.le_div_iff_mul_le (by norm_num : 0 < 2)]
    omega
  omega

lemma calculateXPForLevel_lt_of_lt {L M : Nat} (hL : 1 ≤ L) (hLM : L < M) :
    calculateXPForLevel L < calculateXPForLevel M := by
  have mono : StrictMono (fun k => 100 * 3 ^ k / 2 ^ k) :=
    strictMono_nat_of_lt_succ calcXP_step_lt
  unfold calculateXPForLevel
  exact mono (by omega)

lemma updateStreak_achievements (u : UserState) (now : Int) :
    (updateStreak u now).achievements =
      (if (updateStreak u now).streak = 7 ∧ 3 ∉ u.achievements then
         u.achievements ++ [3]
       else if (updateStreak u now).streak = 30 ∧ 6 ∉ u.achievements then
         u.achievements ++ [6]
       else u.achievements) := by
  rw [updateStreak_streak]
  unfold updateStreak
  dsimp only
  repeat' split
  all_goals simp_all [awardAchievement_achievements]

lemma updateStreak_total_points (u : UserState) (now : Int) :
    (updateStreak u now).total_points =
      u.total_points +
      (if (updateStreak u now).streak = 7 ∧ 3 ∉ u.achievements then 500
       else if (updateStreak u now).streak = 30 ∧ 6 ∉ u.achievements then 1000
       else 0) := by
  rw [updateStreak_streak]
  unfold updateStreak
  dsimp only
  repeat' split
  all_goals simp_all [awardAchievement_total_points]

lemma filter_map_markCompleted (l : List TaskCompletion) (taskId : Nat)
    (today : Int) :
    (l.map (fun c => if c.task_id == taskId && c.day == today then
        { c with completed := true } else c)).filter
        (fun c => c.task_id == taskId && c.day == today) =
      (l.filter (fun c => c.task_id == taskId && c.day == today)).map
        (fun c => { c with completed := true }) := by
  rw [List.filter_map]
  have h1 : l.filter ((fun c => c.task_id == taskId && c.day == today) ∘
      (fun c => if c.task_id == taskId && c.day == today then
        { c with completed := true } else c)) =
      l.filter (fun c => c.task_id == taskId && c.day == today) := by
    apply List.filter_congr
    intro c _
    by_cases h : (c.task_id == taskId && c.day == today) = true
    · simp only [Function.comp_apply, if_pos h]
    · simp only [Function.comp_apply, if_neg h]
  rw [h1]
  apply List.map_congr_left
  intro c hc
  rw [List.mem_filter] at hc
  rw [if_pos hc.2]

lemma upsert_sameDay_completed_count (u : UserState) (taskId : Nat)
    (today prog : Int)
    (huniq : (sameDayRows u taskId today).length ≤ 1) :
    ((sameDayRows (upsertCompletion u taskId today prog) taskId
        today).filter (fun c => c.completed)).length = 1 := by
  unfold upsertCompletion
  by_cases hany :
      (u.completions.any (fun c => c.task_id == taskId && c.day == today))
        = true
  · rw [if_pos hany]
    unfold sameDayRows at *
    dsimp only
    rw [filter_map_markCompleted]
    have hne : (u.completions.filter
        (fun c => c.task_id == taskId && c.day == today)) ≠ [] := by
      intro hnil
      rw [List.any_eq_true] at hany
      obtain ⟨x, hx, hpx⟩ := hany
      have := List.filter_eq_nil_iff.mp hnil x hx
      simp_all
    rw [List.filter_eq_self.mpr]
    · rw [List.length_map]
      have h1 : 0 < (u.completions.filter
          (fun c => c.task_id == taskId && c.day == today)).length :=
        List.length_pos.mpr hne
      omega
    · intro a ha
      rw [List.mem_map] at ha
      obtain ⟨b, _, rfl⟩ := ha
      rfl
  · rw [if_neg hany]
    unfold sameDayRows at *
    dsimp only
    rw [List.filter_append]
    have hnil : u.completions.filter
        (fun c => c.task_id == taskId && c.day == today) = [] := by
      rw [List.filter_eq_nil_iff]
      intro a ha
      rw [List.any_eq_true] at hany
      intro hpa
      exact hany ⟨a, ha, hpa⟩
    rw [hnil]
    simp

lemma sameDayRows_congr {u v : UserState} (h : u.completions = v.completions)
    (taskId : Nat) (today : Int) :
    sameDayRows u taskId today = sameDayRows v taskId today := by
  unfold sameDayRows; rw [h]

/- ================= claim theorems ================= -/

/-- C6: for every level L ≥ 1, calculateXPForLevel L equals
floor(100 * 1.5^(L-1)); in particular calculateXPForLevel 1 = 100 and
calculateXPForLevel 5 = 506; the function is a pure deterministic function,
strictly increasing in the level. -/
theorem calculateXPForLevel_spec (L : Nat) (hL : 1 ≤ L) :
    calculateXPForLevel L = xpForLevelSpec L ∧
    calculateXPForLevel 1 = 100 ∧
    calculateXPForLevel 5 = 506 ∧
    ∀ M, L < M → calculateXPForLevel L < calculateXPForLevel M :=
  ⟨calculateXPForLevel_eq_spec L, by decide, by decide,
   fun _ h => calculateXPForLevel_lt_of_lt hL h⟩

/-- Witness for C6 at L = 1, M = 2. -/
theorem calculateXPForLevel_spec_witness :
    calculateXPForLevel 1 = xpForLevelSpec 1 ∧
    calculateXPForLevel 1 = 100 ∧
    calculateXPForLevel 5 = 506 ∧
    calculateXPForLevel 1 < calculateXPForLevel 2 := by
  have h := calculateXPForLevel_spec 1 (by decide)
  exact ⟨h.1, h.2.1, h.2.2.1, h.2.2.2 2 (by decide)⟩

/-- C1 counterexample: a single awardXP call can leave xp at or above the
XP required for the next level.  From the fresh user (level 1, xp 0),
awardXP of 400 leaves level 2 with xp 250 while clearing level 3 requires
225, so the claimed invariant fails right after one call. -/
theorem awardXP_overflow_violates_invariant :
    ¬ (((awardXP user0 400).1).xp <
       (calculateXPForLevel (((awardXP user0 400).1).level + 1) : Int)) := by
  decide

/-- C1 (amended): after a single awardXP(user, amount) with amount ≥ 0 the
stored xp is strictly below the XP required for the next level, provided the
combined XP does not overflow past one full further level, i.e.
xp + amount < XPForLevel(level+1) + XPForLevel(level+2); the
single-level-advance policy makes the unconditional claim fail. -/
theorem awardXP_bounded_overflow_invariant (u : UserState) (a : Int)
    (ha : 0 ≤ a)
    (hbound : u.xp + a < (calculateXPForLevel (u.level + 1) : Int) +
        (calculateXPForLevel (u.level + 2) : Int)) :
    ((awardXP u a).1).xp <
      (calculateXPForLevel (((awardXP u a).1).level + 1) : Int) := by
  by_cases hc : (calculateXPForLevel (u.level + 1) : Int) ≤ u.xp + a
  · rw [awardXP_fst, if_pos hc]
    dsimp only
    rw [show u.level + 1 + 1 = u.level + 2 by omega]
    omega
  · rw [awardXP_fst, if_neg hc]
    dsimp only
    omega

/-- Witness for C1 (amended): awarding 50 XP to the fresh user leaves
xp 50 below the 150 XP needed to clear level 2. -/
theorem awardXP_bounded_overflow_invariant_witness :
    (0 : Int) ≤ 50 ∧
    user0.xp + 50 < (calculateXPForLevel (user0.level + 1) : Int) +
      (calculateXPForLevel (user0.level + 2) : Int) ∧
    ((awardXP user0 50).1).xp <
      (calculateXPForLevel (((awardXP user0 50).1).level + 1) : Int) :=
  ⟨by decide, by decide,
   awardXP_bounded_overflow_invariant user0 50 (by decide) (by decide)⟩

/-- C2: awardXP increments the level by at most one; when xp + amount
reaches the next threshold it sets level to level+1, xp to the remainder
past exactly that one threshold (no cascade) and appends a level_up activity
entry worth 1000 that is not itself credited to xp or points; otherwise
level stays and xp becomes xp + amount; in both cases total_points grows by
exactly the amount, and leveledUp is true iff the level increased. -/
theorem awardXP_spec (u : UserState) (a : Int) (ha : 0 ≤ a) :
    ((awardXP u a).1).total_points = u.total_points + a ∧
    ((awardXP u a).1).level ≤ u.level + 1 ∧
    (((awardXP u a).2).leveledUp = true ↔
      u.level < ((awardXP u a).1).level) ∧
    ((calculateXPForLevel (u.level + 1) : Int) ≤ u.xp + a →
      ((awardXP u a).1).level = u.level + 1 ∧
      ((awardXP u a).1).xp =
        u.xp + a - (calculateXPForLevel (u.level + 1) : Int) ∧
      ((awardXP u a).1).activity = u.activity ++
        [⟨"level_up", "Reached Level " ++ toString (u.level + 1), 1000⟩]) ∧
    (u.xp + a < (calculateXPForLevel (u.level + 1) : Int) →
      ((awardXP u a).1).level = u.level ∧
      ((awardXP u a).1).xp = u.xp + a ∧
      ((awardXP u a).1).activity = u.activity) := by
  by_cases hc : (calculateXPForLevel (u.level + 1) : Int) ≤ u.xp + a
  · rw [awardXP_fst, awardXP_snd, if_pos hc, if_pos hc]
    exact ⟨rfl, Nat.le_refl _, iff_of_true rfl (Nat.lt_succ_self _),
      fun _ => ⟨rfl, rfl, rfl⟩, fun h => absurd hc (not_le.mpr h)⟩
  · rw [awardXP_fst, awardXP_snd, if_neg hc, if_neg hc]
    exact ⟨rfl, Nat.le_succ _, iff_of_false (by simp) (Nat.lt_irrefl _),
      fun h => absurd h hc, fun _ => ⟨rfl, rfl, rfl⟩⟩

/-- Witness for C2: awarding 80 XP to the fresh user adds 80 points without
a level-up; awarding 160 XP crosses the 150 XP threshold and advances to
level 2. -/
theorem awardXP_spec_witness :
    ((awardXP user0 80).1).total_points = user0.total_points + 80 ∧
    ((awardXP user0 160).1).level = user0.level + 1 :=
  ⟨(awardXP_spec user0 80 (by decide)).1,
   ((awardXP_spec user0 160 (by decide)).2.2.2.1 (by decide)).1⟩

/-- C3: with an active reward of cost C found in the catalog, redemption
succeeds iff the user holds at least C points; on success it decrements
total_points to exactly P - C (never below zero) and appends one redemption
record; on insufficient points it answers a 400 error and leaves the user
state unchanged. -/
theorem redeemReward_spec (rewards : List Reward) (u : UserState) (rid : Nat)
    (reward : Reward)
    (hfind : rewards.find? (fun r => r.id == rid && r.active) = some reward) :
    (reward.cost ≤ u.total_points →
      redeemReward rewards u rid =
        ({ u with total_points := u.total_points - reward.cost,
                  redemptions := u.redemptions ++ [rid] },
         .ok "Reward redeemed successfully") ∧
      0 ≤ u.total_points - reward.cost) ∧
    (u.total_points < reward.cost →
      redeemReward rewards u rid = (u, .err 400 "Insufficient points")) := by
  unfold redeemReward
  rw [hfind]
  dsimp only
  constructor
  · intro hle
    rw [if_neg (not_lt.mpr hle)]
    exact ⟨rfl, by omega⟩
  · intro hlt
    rw [if_pos hlt]

/-- Witness for C3: a user with 300 points redeems the 50-point reward. -/
theorem redeemReward_spec_witness :
    redeemReward rewards1 userRich 1 =
      ({ userRich with total_points := userRich.total_points - 50,
                       redemptions := userRich.redemptions ++ [1] },
       .ok "Reward redeemed successfully") ∧
    0 ≤ userRich.total_points - 50 :=
  (redeemReward_spec rewards1 userRich 1 ⟨1, 50, true⟩ (by decide)).1
    (by decide)

/-- C4: awardAchievement is idempotent: starting from a state holding the
achievement at most once, calling it twice yields exactly one unlock record
for the pair, the second call changes no state, and the xp bonus reaches
total_points exactly once (only when the achievement was not yet held). -/
theorem awardAchievement_idempotent (u : UserState) (aid : Nat) (xp : Int)
    (h : u.achievements.count aid ≤ 1) :
    awardAchievement (awardAchievement u aid xp) aid xp =
      awardAchievement u aid xp ∧
    (awardAchievement (awardAchievement u aid xp) aid
        xp).achievements.count aid = 1 ∧
    (awardAchievement u aid xp).total_points =
      u.total_points + (if aid ∈ u.achievements then 0 else xp) := by
  have hmem : aid ∈ (awardAchievement u aid xp).achievements := by
    rw [awardAchievement_achievements]
    split
    · assumption
    · simp
  have hno : awardAchievement (awardAchievement u aid xp) aid xp =
      awardAchievement u aid xp := awardAchievement_mem_noop _ _ _ hmem
  refine ⟨hno, ?_, awardAchievement_total_points u aid xp⟩
  rw [hno, awardAchievement_achievements]
  split
  case isTrue hin =>
    have h1 : 0 < u.achievements.count aid := List.count_pos_iff.mpr hin
    omega
  case isFalse hout =>
    rw [List.count_append]
    have h0 : u.achievements.count aid = 0 := List.count_eq_zero.mpr hout
    simp [h0]

/-- Witness for C4: unlocking achievement 1 twice on the fresh user. -/
theorem awardAchievement_idempotent_witness :
    awardAchievement (awardAchievement user0 1 100) 1 100 =
      awardAchievement user0 1 100 ∧
    (awardAchievement (awardAchievement user0 1 100) 1
        100).achievements.count 1 = 1 ∧
    (awardAchievement user0 1 100).total_points =
      user0.total_points + (if 1 ∈ user0.achievements then 0 else 100) :=
  awardAchievement_idempotent user0 1 100 (by decide)

/-- C5: updateStreak increments the streak when exactly one calendar day
elapsed, resets it to 1 after a gap of more than one day, leaves it
unchanged when zero or negative days elapsed, and always stamps
last_activity with now; a resulting streak of exactly 7 unlocks Week Warrior
(achievement 3, +500 XP) once and exactly 30 unlocks Month Master
(achievement 6, +1000 XP) once; no other streak value unlocks either. -/
theorem updateStreak_spec (u : UserState) (now : Int) :
    (updateStreak u now).last_activity = now ∧
    (updateStreak u now).streak =
      (if (now - u.last_activity).fdiv 86400000 = 1 then u.streak + 1
       else if (now - u.last_activity).fdiv 86400000 > 1 then 1
       else u.streak) ∧
    (updateStreak u now).achievements =
      (if (updateStreak u now).streak = 7 ∧ 3 ∉ u.achievements then
         u.achievements ++ [3]
       else if (updateStreak u now).streak = 30 ∧ 6 ∉ u.achievements then
         u.achievements ++ [6]
       else u.achievements) ∧
    (updateStreak u now).total_points =
      u.total_points +
      (if (updateStreak u now).streak = 7 ∧ 3 ∉ u.achievements then 500
       else if (updateStreak u now).streak = 30 ∧ 6 ∉ u.achievements then 1000
       else 0) :=
  ⟨updateStreak_last_activity u now, updateStreak_streak u now,
   updateStreak_achievements u now, updateStreak_total_points u now⟩

/-- C7: task completion answers 404 when the task id is absent from the
catalog; with the task found, it answers 400 and changes nothing when the
user already has a completed row for that task today; otherwise it upserts
the completion row, awards the task xp_reward through awardXP, runs
updateStreak, answers the XP earned, and the final state holds exactly one
completed row for (task, today). -/
theorem completeTask_spec (tasks : List DailyTask) (u : UserState)
    (taskId : Nat) (today now : Int)
    (huniq : (sameDayRows u taskId today).length ≤ 1) :
    (tasks.find? (fun t => t.id == taskId) = none →
      completeTask tasks u taskId today now =
        (u, .err 404 "Task not found")) ∧
    (∀ task, tasks.find? (fun t => t.id == taskId) = some task →
      (firstCompleted (sameDayRows u taskId today) = true →
        completeTask tasks u taskId today now =
          (u, .err 400 "Task already completed today")) ∧
      (firstCompleted (sameDayRows u taskId today) = false →
        completeTask tasks u taskId today now =
          (updateStreak ((awardXP (upsertCompletion u taskId today
              task.required_count) task.xp_reward).1) now,
           .ok task.xp_reward) ∧
        ((sameDayRows (completeTask tasks u taskId today now).1 taskId
            today).filter (fun c => c.completed)).length = 1)) := by
  refine ⟨fun hnone => ?_,
    fun task hfind => ⟨fun hdone => ?_, fun hnot => ?_⟩⟩
  · unfold completeTask
    rw [hnone]
  · unfold completeTask
    rw [hfind]
    dsimp only
    rw [if_pos hdone]
  · have heq : completeTask tasks u taskId today now =
        (updateStreak ((awardXP (upsertCompletion u taskId today
            task.required_count) task.xp_reward).1) now,
         .ok task.xp_reward) := by
      unfold completeTask
      rw [hfind]
      dsimp only
      rw [if_neg (by simp [hnot])]
    refine ⟨heq, ?_⟩
    rw [heq]
    have hcomp : (updateStreak ((awardXP (upsertCompletion u taskId today
        task.required_count) task.xp_reward).1) now).completions =
        (upsertCompletion u taskId today task.required_count).completions := by
      rw [updateStreak_completions, awardXP_completions]
    rw [sameDayRows_congr hcomp]
    exact upsert_sameDay_completed_count u taskId today _ huniq

/-- Witness for C7: the fresh user completes task 1 (80 XP) on day 0 and
ends with exactly one completed row for that task and day. -/
theorem completeTask_spec_witness :
    (sameDayRows user0 1 0).length ≤ 1 ∧
    ((sameDayRows (completeTask tasks1 user0 1 0 0).1 1 0).filter
        (fun c => c.completed)).length = 1 :=
  ⟨by decide,
   (((completeTask_spec tasks1 user0 1 0 0 (by decide)).2 ⟨1, 1, 80, true⟩
      (by decide)).2 (by decide)).2⟩

/-- C9: a message.created, post.created or reaction.added webhook event
whose external user id matches no local user changes no state, and the
endpoint still answers success. -/
theorem webhook_unknown_user_noop (db : DB) (wid : String)
    (h : getUserByWhopId db wid = none) :
    handleWebhook db "message.created" wid = (db, true) ∧
    handleWebhook db "post.created" wid = (db, true) ∧
    handleWebhook db "reaction.added" wid = (db, true) := by
  have h1 : handleMessageCreated db wid = db := by
    unfold handleMessageCreated
    rw [h]
  have h2 : handlePostCreated db wid = db := by
    unfold handlePostCreated
    rw [h]
  have h3 : handleReactionAdded db wid = db := by
    unfold handleReactionAdded
    rw [h]
  exact ⟨by rw [show handleWebhook db "message.created" wid =
        (handleMessageCreated db wid, true) from rfl, h1],
    by rw [show handleWebhook db "post.created" wid =
        (handlePostCreated db wid, true) from rfl, h2],
    by rw [show handleWebhook db "reaction.added" wid =
        (handleReactionAdded db wid, true) from rfl, h3]⟩

/-- Witness for C9: an empty database and an unknown external id. -/
theorem webhook_unknown_user_noop_witness :
    handleWebhook ⟨[]⟩ "message.created" "nobody" = (⟨[]⟩, true) ∧
    handleWebhook ⟨[]⟩ "post.created" "nobody" = (⟨[]⟩, true) ∧
    handleWebhook ⟨[]⟩ "reaction.added" "nobody" = (⟨[]⟩, true) :=
  webhook_unknown_user_noop ⟨[]⟩ "nobody" (by decide)

/-- C10: redemption enforces no per-user at-most-once rule: a user who
already holds a redemption record for the reward and still has enough points
succeeds again, gaining a second redemption record and paying the cost a
second time. -/
theorem redeemReward_no_at_most_once (rewards : List Reward) (u : UserState)
    (rid : Nat) (reward : Reward)
    (hfind : rewards.find? (fun r => r.id == rid && r.active) = some reward)
    (hprev : rid ∈ u.redemptions)
    (hpts : reward.cost ≤ u.total_points) :
    (redeemReward rewards u rid).2 = .ok "Reward redeemed successfully" ∧
    ((redeemReward rewards u rid).1).total_points =
      u.total_points - reward.cost ∧
    ((redeemReward rewards u rid).1).redemptions.count rid =
      u.redemptions.count rid + 1 ∧
    1 ≤ u.redemptions.count rid := by
  unfold redeemReward
  rw [hfind]
  dsimp only
  rw [if_neg (not_lt.mpr hpts)]
  refine ⟨rfl, rfl, ?_, ?_⟩
  · dsimp only
    rw [List.count_append]
    simp
  · exact List.count_pos_iff.mpr hprev

/-- Witness for C10: a user with 300 points who already redeemed reward 1
redeems it again. -/
theorem redeemReward_no_at_most_once_witness :
    (redeemReward rewards1 userRedeemed 1).2 =
      .ok "Reward redeemed successfully" ∧
    ((redeemReward rewards1 userRedeemed 1).1).total_points =
      userRedeemed.total_points - 50 ∧
    ((redeemReward rewards1 userRedeemed 1).1).redemptions.count 1 =
      userRedeemed.redemptions.count 1 + 1 ∧
    1 ≤ userRedeemed.redemptions.count 1 :=
  redeemReward_no_at_most_once rewards1 userRedeemed 1 ⟨1, 50, true⟩
    (by decide) (by decide) (by decide)

set_option maxRecDepth 100000 in
/-- C8 (code bug): the webhook pipeline never inserts activity_log rows of
activity_type message, so the count read by checkMessageAchievements never
grows from message events: fifty message.created deliveries for a fresh user
leave the Chatterbox achievement locked (no achievement at all is unlocked),
even though each event did award its 10 XP (500 points, level 3, xp 125 at
the end) - contradicting the claim that the 50th message event unlocks
Chatterbox exactly once. -/
theorem messageEvents_do_not_unlock_chatterbox :
    (getUserByWhopId (processEvents oneUserDB
        (List.replicate 50 ("message.created", "w1"))) "w1").map
      (fun u => (u.achievements, u.total_points, u.level, u.xp)) =
    some ([], 500, 3, 125) := by
  decide

end Whop
